import Mathlib

/-!
Shallow embedding of `src/azure/resource-count-azure.py`.

The script enumerates enabled Azure subscriptions, counts VMs, scans the
generic resource list and buckets each descriptor into one of seven fixed
categories, resolves AKS cluster node capacity through an
`az aks list | jq` pipe, accumulates per-subscription counts into global
totals in a fixed category order, and collects error records in a list.

External collaborators (the `az` CLI and `jq`) are modelled as data: the
cluster list a subscription would return, the raw strings the pipes would
print, and the parsed resource list.  Machine behaviour that the script
relies on (Python `str.lower`, `str.isdigit`, `int`, the `in` substring
test, truthiness of strings, and the jq program in
`get_configured_aks_node_count`) is translated into executable Lean
functions below.
-/

/-- Models a JSON scalar as it can appear in an `agentPoolProfiles` entry
returned by `az aks list` (null, boolean, number, string).  Numbers are
modelled as integers. -/
inductive Jv where
  | jnull
  | jbool (b : Bool)
  | jnum (n : Int)
  | jstr (s : String)
deriving DecidableEq, Repr

/-- Models one `agentPoolProfiles` element: optional `maxCount` and
`count` fields; `none` means the key is absent from the object. -/
structure AgentPoolProfile where
  maxCount : Option Jv
  count : Option Jv
deriving DecidableEq, Repr

/-- Models one cluster object returned by `az aks list`: its
`agentPoolProfiles` array. -/
structure AksCluster where
  agentPoolProfiles : List AgentPoolProfile
deriving DecidableEq, Repr

/-- Models the jq expression `.maxCount? // .count?` applied to one
profile: object access on a missing key yields `null`, and the
alternative operator `//` takes the left operand unless it is `null` or
`false`. -/
def jqProfileValue (p : AgentPoolProfile) : Jv :=
  match p.maxCount.getD Jv.jnull with
  | Jv.jnull => p.count.getD Jv.jnull
  | Jv.jbool false => p.count.getD Jv.jnull
  | v => v

/-- Models `[ .[] | .agentPoolProfiles[]? | (.maxCount? // .count?) ] |
map(select(type == "number"))`: the list of numeric selected values
across every profile of every cluster. -/
def jqContribs (cs : List AksCluster) : List Int :=
  ((cs.map AksCluster.agentPoolProfiles).flatten.map jqProfileValue).filterMap
    (fun v => match v with | Jv.jnum n => some n | _ => none)

/-- One step of the decimal-digit accumulator used to model Python `int`
on a digit string (and the value of a printed numeral). -/
def digitStep (a : Nat) (c : Char) : Nat := a * 10 + (c.toNat - 48)

/-- Value of a big-endian list of decimal digit characters. -/
def digitsVal (l : List Char) : Nat := l.foldl digitStep 0

/-- Models Python `int` applied to a string that passed `str.isdigit`. -/
def digitsToNat (s : String) : Nat := digitsVal s.data

/-- Models Python `str.isdigit` (restricted to ASCII): nonempty and all
characters are decimal digits. -/
def isDigitString (s : String) : Bool := !(s.data.isEmpty) && s.data.all Char.isDigit

/-- Fuel-driven big-endian decimal digit expansion of a natural number;
structural in the fuel so that it evaluates inside the kernel. -/
def natDigitsAux (fuel : Nat) (n : Nat) : List Char :=
  match fuel with
  | 0 => []
  | fuel + 1 =>
    if n < 10 then [Char.ofNat (48 + n)]
    else natDigitsAux fuel (n / 10) ++ [Char.ofNat (48 + n % 10)]

/-- Decimal rendering of a natural number, as jq prints it. -/
def natRender (n : Nat) : String := ⟨natDigitsAux (n + 1) n⟩

/-- Decimal rendering of an integer, as jq prints the result of `add`. -/
def intRender (i : Int) : String :=
  if i < 0 then "-" ++ natRender i.natAbs else natRender i.toNat

/-- Models the raw text printed by the full
`az aks list ... | jq -r '[...] | map(select(type == "number")) | add'`
pipe on a successful cluster listing: jq `add` on an empty array is
`null`, printed as the string `null` under `-r`; otherwise the sum is
printed as a decimal numeral. -/
def jqAddOutput (cs : List AksCluster) : String :=
  match jqContribs cs with
  | [] => "null"
  | ns => intRender ns.sum

/-- Error record appended by `get_configured_aks_node_count` when the
pipe prints unexpected text (string quotes of the original message are
omitted).  Mirrors
`f"{subscription_name} ({subscription_id}) - Failed to execute or parse configured AKS node count. Error: {e}"`
with `e` the ValueError built from the raw output. -/
def aksErrMsg (subscription_name subscription_id raw : String) : String :=
  subscription_name ++ " (" ++ subscription_id ++
    ") - Failed to execute or parse configured AKS node count. Error: Unexpected output from AKS count pipe: "
    ++ raw

/-- Models `get_configured_aks_node_count` acting on the stripped raw
output of the pipe: a digit string parses to that number, `null` or the
empty string degrade to 0 silently, anything else raises a ValueError
that the enclosing `except` converts into one appended error record and
a result of 0.  The returned list is the sequence of error records the
call appends to the global `error_list`. -/
def get_configured_aks_node_count (subscription_name subscription_id raw : String) :
    Int × List String :=
  if isDigitString raw = true then ((digitsToNat raw : Int), [])
  else if raw = "null" ∨ raw = "" then (0, [])
  else (0, [aksErrMsg subscription_name subscription_id raw])

/-- The capacity resolver as a function of the cluster list the
subscription would return: the jq pipe output fed to
`get_configured_aks_node_count`. -/
def aksResolve (subscription_name subscription_id : String) (cs : List AksCluster) :
    Int × List String :=
  get_configured_aks_node_count subscription_name subscription_id (jqAddOutput cs)

/-- Modelled from the wording of the specification (for the refinement
check of the capacity resolver): take `maxCount` when present and
numeric, else `count` when present and numeric, else contribute
nothing. -/
def specProfileContribution (p : AgentPoolProfile) : Int :=
  match p.maxCount with
  | some (Jv.jnum n) => n
  | _ =>
    match p.count with
    | some (Jv.jnum n) => n
    | _ => 0

/-- Modelled from the wording of the specification: the sum of the
claimed per-profile contributions over every cluster. -/
def specAksSum (cs : List AksCluster) : Int :=
  ((cs.map AksCluster.agentPoolProfiles).flatten.map specProfileContribution).sum

lemma digitChar_spec (d : Nat) (hd : d < 10) :
    (Char.ofNat (48 + d)).toNat = 48 + d ∧ Char.isDigit (Char.ofNat (48 + d)) = true := by
  interval_cases d <;> exact ⟨rfl, rfl⟩

lemma natDigitsAux_spec (fuel : Nat) :
    ∀ n, n < fuel →
      natDigitsAux fuel n ≠ [] ∧ (natDigitsAux fuel n).all Char.isDigit = true ∧
      ∀ a, (natDigitsAux fuel n).foldl digitStep a = a * 10 ^ (natDigitsAux fuel n).length + n := by
  induction fuel with
  | zero => intro n hn; omega
  | succ fuel ih =>
    intro n hn
    by_cases h10 : n < 10
    · have hchar := digitChar_spec n h10
      refine ⟨by simp [natDigitsAux, h10], by simp [natDigitsAux, h10, hchar.2], ?_⟩
      intro a
      simp only [natDigitsAux, if_pos h10, List.foldl_cons, List.foldl_nil, List.length_cons,
        List.length_nil, digitStep, hchar.1]
      simp [pow_one]
    · have hlt : n / 10 < fuel := by omega
      obtain ⟨hne, hdig, hval⟩ := ih (n / 10) hlt
      have hm : n % 10 < 10 := Nat.mod_lt _ (by omega)
      have hchar := digitChar_spec (n % 10) hm
      refine ⟨by simp [natDigitsAux, h10], ?_, ?_⟩
      · simp [natDigitsAux, h10, List.all_append, hdig, hchar.2]
      · intro a
        simp only [natDigitsAux, if_neg h10, List.foldl_append, List.foldl_cons,
          List.foldl_nil, List.length_append, List.length_cons, List.length_nil]
        rw [hval a]
        simp only [digitStep, hchar.1]
        have hdm : 10 * (n / 10) + n % 10 = n := Nat.div_add_mod n 10
        have hpow : (10 : Nat) ^ ((natDigitsAux fuel (n / 10)).length + (0 + 1)) =
            10 ^ (natDigitsAux fuel (n / 10)).length * 10 := by
          rw [Nat.zero_add, pow_succ]
        rw [hpow]
        calc (a * 10 ^ (natDigitsAux fuel (n / 10)).length + n / 10) * 10 + (48 + n % 10 - 48)
            = a * (10 ^ (natDigitsAux fuel (n / 10)).length * 10) + (10 * (n / 10) + n % 10) := by
              ring_nf; omega
          _ = a * (10 ^ (natDigitsAux fuel (n / 10)).length * 10) + n := by rw [hdm]

lemma natRender_spec (m : Nat) :
    isDigitString (natRender m) = true ∧ digitsToNat (natRender m) = m := by
  obtain ⟨hne, hdig, hval⟩ := natDigitsAux_spec (m + 1) m (by omega)
  constructor
  · simp [isDigitString, natRender, hdig]
    simpa [List.isEmpty_iff] using hne
  · have := hval 0
    simpa [digitsToNat, natRender, digitsVal] using this

/-- Models Python `str.lower` (ASCII): lowercases every character. -/
def pyLower (s : String) : String := ⟨s.data.map Char.toLower⟩

/-- Helper for the Python `in` substring test: does `pat` occur as a
contiguous sublist of the second argument. -/
def containsAux (pat : List Char) : List Char → Bool
  | [] => pat.isEmpty
  | c :: t => pat.isPrefixOf (c :: t) || containsAux pat t

/-- Models the Python expression `pat in s` on strings: substring
containment. -/
def pyIn (pat s : String) : Bool := containsAux pat.data s.data

/-- The marker substring `function_kind = 'functionapp'` from the
script. -/
def function_kind : String := "functionapp"

/-- The seven fixed category labels of the census, as an enumeration.
Display strings are attached by `categoryLabel`. -/
inductive Category where
  | vms
  | aks
  | caas
  | serverless
  | buckets
  | paas
  | registries
deriving DecidableEq, Repr

/-- The display string of each category, exactly as in the script. -/
def categoryLabel : Category → String
  | .vms => "Virtual Machines (VMs)"
  | .aks => "Container Hosts (AKS Clusters)"
  | .caas => "Container as a Service (CaaS)"
  | .serverless => "Serverless Functions"
  | .buckets => "Cloud Buckets (Storage Accounts)"
  | .paas => "Managed Cloud Database (PaaS)"
  | .registries => "Container Registries (ACR)"

/-- Models the `RESOURCE_TO_CATEGORY` dict: lowercased resource type to
category, in the order the entries are written in the script. -/
def RESOURCE_TO_CATEGORY : List (String × Category) :=
  [("microsoft.compute/virtualmachines", Category.vms),
   ("microsoft.containerservice/managedclusters", Category.aks),
   ("microsoft.containerinstance/containergroups", Category.caas),
   ("microsoft.app/containerapps", Category.caas),
   ("microsoft.storage/storageaccounts", Category.buckets),
   ("microsoft.sql/servers", Category.paas),
   ("microsoft.sql/managedinstances", Category.paas),
   ("microsoft.documentdb/databaseaccounts", Category.paas),
   ("microsoft.cache/redis", Category.paas),
   ("microsoft.dbformysql/servers", Category.paas),
   ("microsoft.dbformysql/flexibleservers", Category.paas),
   ("microsoft.dbforpostgresql/servergroupsv2", Category.paas),
   ("microsoft.dbforpostgresql/flexibleservers", Category.paas),
   ("microsoft.dbforpostgresql/servers", Category.paas),
   ("microsoft.containerregistry/registries", Category.registries)]

/-- Taxonomy lookup as the scan loop performs it: lowercase the type,
then exact-key lookup in the dict. -/
def categoryOfType (ty : String) : Option Category :=
  List.lookup (pyLower ty) RESOURCE_TO_CATEGORY

/-- A per-scope census: one integer count per category, every key always
present.  Models the `sub_census` and `global_totals` dicts. -/
structure Census where
  vms : Int
  aks : Int
  caas : Int
  serverless : Int
  buckets : Int
  paas : Int
  registries : Int
deriving DecidableEq, Repr

/-- Read one category slot of a census. -/
def Census.get (s : Census) : Category → Int
  | .vms => s.vms
  | .aks => s.aks
  | .caas => s.caas
  | .serverless => s.serverless
  | .buckets => s.buckets
  | .paas => s.paas
  | .registries => s.registries

/-- Write one category slot of a census. -/
def Census.set (s : Census) : Category → Int → Census
  | .vms, v => { s with vms := v }
  | .aks, v => { s with aks := v }
  | .caas, v => { s with caas := v }
  | .serverless, v => { s with serverless := v }
  | .buckets, v => { s with buckets := v }
  | .paas, v => { s with paas := v }
  | .registries, v => { s with registries := v }

/-- The all-zero census, as both `global_totals` and `sub_census` are
initialised in the script. -/
def censusZero : Census := ⟨0, 0, 0, 0, 0, 0, 0⟩

lemma Census.get_set (s : Census) (c d : Category) (v : Int) :
    (s.set c v).get d = if c = d then v else s.get d := by
  cases c <;> cases d <;> rfl

lemma censusZero_get (c : Category) : censusZero.get c = 0 := by
  cases c <;> rfl

/-- Models one resource descriptor from `az resource list`: its `type`
and optional `kind`. -/
structure AzResource where
  type : String
  kind : Option String
deriving DecidableEq, Repr

/-- State of the per-subscription scan loop: the census, the
`aks_counted_flag`, a ghost counter of capacity-resolver invocations,
and the error records appended so far. -/
structure ScanState where
  census : Census
  aksFlag : Bool
  invocations : Nat
  errors : List String
deriving DecidableEq, Repr

/-- True when the descriptor has the AKS managed-cluster type (after
lowercasing), the trigger of the capacity resolver. -/
def isClusterRes (r : AzResource) : Bool :=
  pyLower r.type == "microsoft.containerservice/managedclusters"

/-- Models one iteration of the `for az_resource in az_resources` loop:
AKS special case guarded by `aks_counted_flag`, serverless detection on
`microsoft.web/sites` via truthiness of `kind` and the `function_kind`
substring test, the skip of VM and Synapse workspace types, and the
generic `RESOURCE_TO_CATEGORY` lookup.  `aksRaw` is the raw text of the
`az aks list | jq` pipe for this subscription. -/
def scanStep (subscription_name subscription_id aksRaw : String)
    (st : ScanState) (r : AzResource) : ScanState :=
  let ty := pyLower r.type
  if ty = "microsoft.containerservice/managedclusters" then
    if st.aksFlag then st
    else
      let res := get_configured_aks_node_count subscription_name subscription_id aksRaw
      { census := st.census.set Category.aks res.1, aksFlag := true,
        invocations := st.invocations + 1, errors := st.errors ++ res.2 }
  else if ty = "microsoft.web/sites" then
    match r.kind with
    | some k =>
      if k ≠ "" ∧ pyIn function_kind (pyLower k) = true then
        let n := st.census.get Category.serverless + 1
        { st with census := st.census.set Category.serverless n }
      else st
    | none => st
  else if ty = "microsoft.compute/virtualmachines" ∨ ty = "microsoft.synapse/workspaces" then st
  else
    match List.lookup ty RESOURCE_TO_CATEGORY with
    | some c => { st with census := st.census.set c (st.census.get c + 1) }
    | none => st

/-- The whole generic-resource scan of one subscription: fold the loop
body over the descriptor list. -/
def scanResources (subscription_name subscription_id aksRaw : String)
    (rs : List AzResource) (st : ScanState) : ScanState :=
  rs.foldl (scanStep subscription_name subscription_id aksRaw) st

/-- Models Python `int` on a stripped string: optional sign followed by
at least one digit, otherwise failure (ValueError). -/
def pyInt (s : String) : Option Int :=
  match s.data with
  | [] => none
  | '-' :: rest =>
    if rest ≠ [] ∧ rest.all Char.isDigit then some (-(digitsVal rest : Int)) else none
  | '+' :: rest =>
    if rest ≠ [] ∧ rest.all Char.isDigit then some ((digitsVal rest : Int)) else none
  | l => if l.all Char.isDigit then some ((digitsVal l : Int)) else none

/-- Error record appended when the VM listing step fails (string quotes
of the original message are omitted); mirrors
`f"{subscription_name} ({subscription_id}) - Error executing az vm list. Error: {e}"`
with the ValueError text of Python `int`. -/
def vmErrMsg (subscription_name subscription_id raw : String) : String :=
  subscription_name ++ " (" ++ subscription_id ++
    ") - Error executing az vm list. Error: invalid literal for int() with base 10: " ++ raw

/-- Error record appended when the generic resource listing cannot be
fetched or parsed (string quotes of the original message are
omitted). -/
def resourceErrMsg (subscription_name subscription_id : String) : String :=
  subscription_name ++ " (" ++ subscription_id ++
    ") - Error executing az resource list. Error: Expecting value"

/-- One subscription together with the outcomes of the external calls
made while processing it: the `az account list` fields, the stripped
output of the VM count pipe, the parsed resource list (`none` models a
fetch or JSON parse failure), and the raw output of the AKS pipe. -/
structure SubInput where
  name : String
  id : String
  state : String
  vmRaw : String
  resources : Option (List AzResource)
  aksRaw : String
deriving DecidableEq, Repr

/-- Models the body of the per-subscription loop: the VM count step
(with its try/except), then the generic resource scan (with its
try/except), returning the final `sub_census` and the error records this
subscription appended. -/
def processSubscription (si : SubInput) : Census × List String :=
  let vmStep : Census × List String :=
    match pyInt si.vmRaw with
    | some sub_vm_count =>
      (if 0 < sub_vm_count then censusZero.set Category.vms sub_vm_count else censusZero, [])
    | none => (censusZero, [vmErrMsg si.name si.id si.vmRaw])
  match si.resources with
  | some rs =>
    let st := scanResources si.name si.id si.aksRaw rs ⟨vmStep.1, false, 0, []⟩
    (st.census, vmStep.2 ++ st.errors)
  | none => (vmStep.1, vmStep.2 ++ [resourceErrMsg si.name si.id])

/-- The canonical category order `requested_order` of the script. -/
def requested_order : List Category :=
  [Category.vms, Category.aks, Category.caas, Category.serverless,
   Category.buckets, Category.paas, Category.registries]

/-- Models the accumulation loop `for category in requested_order:
global_totals[category] += sub_census.get(category, 0)`. -/
def accumulate (g s : Census) : Census :=
  requested_order.foldl (fun acc c => acc.set c (acc.get c + s.get c)) g

/-- One iteration of the outer `for az_account in az_account_list` loop:
disabled subscriptions are skipped entirely, enabled ones are processed
and folded into the running totals and error list. -/
def runStep (acc : Census × List String) (si : SubInput) : Census × List String :=
  if si.state = "Enabled" then
    let r := processSubscription si
    (accumulate acc.1 r.1, acc.2 ++ r.2)
  else acc

/-- The whole run: fold every account into the global totals and the
error list, starting from the all-zero `global_totals` and the empty
`error_list`. -/
def runAll (subs : List SubInput) : Census × List String :=
  subs.foldl runStep (censusZero, [])

/-- The per-subscription report block: the category/count pairs printed,
in the order they are printed. -/
def subReport (s : Census) : List (Category × Int) :=
  requested_order.map (fun c => (c, s.get c))

/-- The grand-total report block: the category/count pairs printed, in
the order they are printed. -/
def grandReport (g : Census) : List (Category × Int) :=
  requested_order.map (fun c => (c, g.get c))

/-- The string `sub` occurs verbatim inside `msg`. -/
def mentionsSub (msg sub : String) : Prop :=
  ∃ p q : List Char, msg.data = p ++ (sub.data ++ q)

lemma lookup_mem {k : String} {c : Category} :
    ∀ {l : List (String × Category)}, List.lookup k l = some c → (k, c) ∈ l := by
  intro l
  induction l with
  | nil => intro h; simp [List.lookup] at h
  | cons a t ih =>
    obtain ⟨x, y⟩ := a
    intro h
    by_cases hk : k == x
    · have hx : k = x := eq_of_beq hk
      simp [List.lookup, hk] at h
      subst hx
      subst h
      exact List.mem_cons_self ..
    · simp [List.lookup, hk] at h
      exact List.mem_cons_of_mem _ (ih h)

lemma lookup_of_mem_nodup {k : String} {c : Category} :
    ∀ {l : List (String × Category)}, (l.map Prod.fst).Nodup → (k, c) ∈ l →
      List.lookup k l = some c := by
  intro l
  induction l with
  | nil => intro _ h; simp at h
  | cons a t ih =>
    obtain ⟨x, y⟩ := a
    intro hnd hm
    have hnd0 : (x :: t.map Prod.fst).Nodup := by
      simpa [List.map_cons] using hnd
    have hnd1 : x ∉ t.map Prod.fst := (List.nodup_cons.mp hnd0).1
    have hnd2 : (t.map Prod.fst).Nodup := (List.nodup_cons.mp hnd0).2
    rcases List.mem_cons.mp hm with heq | htail
    · have hk : k = x := congrArg Prod.fst heq
      have hc : c = y := congrArg Prod.snd heq
      subst hk; subst hc
      simp [List.lookup]
    · by_cases hk : k = x
      · exfalso
        apply hnd1
        subst hk
        exact List.mem_map_of_mem Prod.fst htail
      · have hbeq : (k == x) = false := by
          simpa using hk
        simp [List.lookup, hbeq]
        exact ih hnd2 htail

lemma table_keys_nodup : (RESOURCE_TO_CATEGORY.map Prod.fst).Nodup := by decide

lemma lookup_aks_eq {ty : String}
    (h : List.lookup ty RESOURCE_TO_CATEGORY = some Category.aks) :
    ty = "microsoft.containerservice/managedclusters" := by
  have hm := lookup_mem h
  simp [RESOURCE_TO_CATEGORY, Prod.ext_iff] at hm
  tauto

lemma lookup_vms_eq {ty : String}
    (h : List.lookup ty RESOURCE_TO_CATEGORY = some Category.vms) :
    ty = "microsoft.compute/virtualmachines" := by
  have hm := lookup_mem h
  simp [RESOURCE_TO_CATEGORY, Prod.ext_iff] at hm
  tauto

lemma isClusterRes_iff (r : AzResource) :
    isClusterRes r = true ↔ pyLower r.type = "microsoft.containerservice/managedclusters" := by
  simp [isClusterRes]

lemma scanStep_cluster_skip (n i raw : String) (st : ScanState) (r : AzResource)
    (hcl : isClusterRes r = true) (hf : st.aksFlag = true) :
    scanStep n i raw st r = st := by
  have hty := (isClusterRes_iff r).mp hcl
  simp [scanStep, hty, hf]

lemma scanStep_cluster_fire (n i raw : String) (st : ScanState) (r : AzResource)
    (hcl : isClusterRes r = true) (hf : st.aksFlag = false) :
    scanStep n i raw st r =
      ⟨st.census.set Category.aks (get_configured_aks_node_count n i raw).1, true,
       st.invocations + 1, st.errors ++ (get_configured_aks_node_count n i raw).2⟩ := by
  have hty := (isClusterRes_iff r).mp hcl
  simp [scanStep, hty, hf]

lemma scanStep_flag (n i raw : String) (st : ScanState) (r : AzResource) :
    (scanStep n i raw st r).aksFlag = (st.aksFlag || isClusterRes r) := by
  by_cases hcl : isClusterRes r = true
  · cases hf : st.aksFlag
    · rw [scanStep_cluster_fire n i raw st r hcl hf]; simp [hcl]
    · rw [scanStep_cluster_skip n i raw st r hcl hf]; simp [hf]
  · have hty : ¬ pyLower r.type = "microsoft.containerservice/managedclusters" := by
      simpa [isClusterRes_iff] using hcl
    simp only [scanStep, if_neg hty]
    have hcl' : isClusterRes r = false := by simpa using hcl
    by_cases hs : pyLower r.type = "microsoft.web/sites"
    · simp only [if_pos hs]
      cases r.kind with
      | none => simp [hcl']
      | some k => by_cases hk : k ≠ "" ∧ pyIn function_kind (pyLower k) = true <;>
          simp [hk, hcl']
    · simp only [if_neg hs]
      by_cases hv : pyLower r.type = "microsoft.compute/virtualmachines" ∨
          pyLower r.type = "microsoft.synapse/workspaces"
      · simp [hv, hcl']
      · simp only [if_neg hv]
        cases List.lookup (pyLower r.type) RESOURCE_TO_CATEGORY with
        | none => simp [hcl']
        | some c => simp [hcl']

lemma scanStep_nonCluster (n i raw : String) (st : ScanState) (r : AzResource)
    (hcl : isClusterRes r = false) :
    (scanStep n i raw st r).invocations = st.invocations ∧
    (scanStep n i raw st r).census.get Category.aks = st.census.get Category.aks ∧
    (scanStep n i raw st r).errors = st.errors := by
  have hty : ¬ pyLower r.type = "microsoft.containerservice/managedclusters" := by
    intro h
    rw [(isClusterRes_iff r).mpr h] at hcl
    cases hcl
  simp only [scanStep, if_neg hty]
  by_cases hs : pyLower r.type = "microsoft.web/sites"
  · simp only [if_pos hs]
    cases r.kind with
    | none => exact ⟨rfl, rfl, rfl⟩
    | some k =>
      by_cases hk : k ≠ "" ∧ pyIn function_kind (pyLower k) = true
      · simp [hk, Census.get_set]
      · simp [hk]
  · simp only [if_neg hs]
    by_cases hv : pyLower r.type = "microsoft.compute/virtualmachines" ∨
        pyLower r.type = "microsoft.synapse/workspaces"
    · simp [hv]
    · simp only [if_neg hv]
      cases hl : List.lookup (pyLower r.type) RESOURCE_TO_CATEGORY with
      | none => exact ⟨rfl, rfl, rfl⟩
      | some c =>
        refine ⟨rfl, ?_, rfl⟩
        have hne : c ≠ Category.aks := by
          intro hceq
          subst hceq
          exact hty (lookup_aks_eq hl)
        simp [Census.get_set, hne]

lemma scanStep_vms (n i raw : String) (st : ScanState) (r : AzResource) :
    (scanStep n i raw st r).census.get Category.vms = st.census.get Category.vms := by
  by_cases hcl : isClusterRes r = true
  · cases hf : st.aksFlag
    · rw [scanStep_cluster_fire n i raw st r hcl hf]
      simp [Census.get_set]
    · rw [scanStep_cluster_skip n i raw st r hcl hf]
  · have hty : ¬ pyLower r.type = "microsoft.containerservice/managedclusters" := by
      intro h
      exact hcl ((isClusterRes_iff r).mpr h)
    simp only [scanStep, if_neg hty]
    by_cases hs : pyLower r.type = "microsoft.web/sites"
    · simp only [if_pos hs]
      cases r.kind with
      | none => rfl
      | some k =>
        by_cases hk : k ≠ "" ∧ pyIn function_kind (pyLower k) = true
        · simp [hk, Census.get_set]
        · simp [hk]
    · simp only [if_neg hs]
      by_cases hv : pyLower r.type = "microsoft.compute/virtualmachines" ∨
          pyLower r.type = "microsoft.synapse/workspaces"
      · simp [hv]
      · simp only [if_neg hv]
        cases hl : List.lookup (pyLower r.type) RESOURCE_TO_CATEGORY with
        | none => rfl
        | some c =>
          have hne : c ≠ Category.vms := by
            intro hceq
            subst hceq
            exact hv (Or.inl (lookup_vms_eq hl))
          simp [Census.get_set, hne]

lemma scan_flag (n i raw : String) :
    ∀ (rs : List AzResource) (st : ScanState),
      (scanResources n i raw rs st).aksFlag = (st.aksFlag || rs.any isClusterRes) := by
  intro rs
  induction rs with
  | nil => intro st; simp [scanResources]
  | cons r t ih =>
    intro st
    simp only [scanResources, List.foldl_cons, List.any_cons]
    rw [show (t.foldl (scanStep n i raw) (scanStep n i raw st r)) =
      scanResources n i raw t (scanStep n i raw st r) from rfl]
    rw [ih, scanStep_flag]
    cases st.aksFlag <;> cases hcl : isClusterRes r <;> simp

lemma scan_inv (n i raw : String) :
    ∀ (rs : List AzResource) (st : ScanState),
      (scanResources n i raw rs st).invocations =
        st.invocations +
          (if st.aksFlag = false ∧ rs.any isClusterRes = true then 1 else 0) := by
  intro rs
  induction rs with
  | nil => intro st; simp [scanResources]
  | cons r t ih =>
    intro st
    simp only [scanResources, List.foldl_cons, List.any_cons]
    rw [show (t.foldl (scanStep n i raw) (scanStep n i raw st r)) =
      scanResources n i raw t (scanStep n i raw st r) from rfl]
    rw [ih]
    by_cases hcl : isClusterRes r = true
    · cases hf : st.aksFlag
      · rw [scanStep_cluster_fire n i raw st r hcl hf]
        simp [hcl]
      · rw [scanStep_cluster_skip n i raw st r hcl hf]
        simp [hf]
    · have hcl' : isClusterRes r = false := by simpa using hcl
      obtain ⟨hinv, _, _⟩ := scanStep_nonCluster n i raw st r hcl'
      rw [hinv, scanStep_flag]
      simp [hcl']

lemma scan_aks (n i raw : String) :
    ∀ (rs : List AzResource) (st : ScanState),
      (scanResources n i raw rs st).census.get Category.aks =
        (if st.aksFlag = false ∧ rs.any isClusterRes = true
         then (get_configured_aks_node_count n i raw).1
         else st.census.get Category.aks) := by
  intro rs
  induction rs with
  | nil => intro st; simp [scanResources]
  | cons r t ih =>
    intro st
    simp only [scanResources, List.foldl_cons, List.any_cons]
    rw [show (t.foldl (scanStep n i raw) (scanStep n i raw st r)) =
      scanResources n i raw t (scanStep n i raw st r) from rfl]
    rw [ih]
    by_cases hcl : isClusterRes r = true
    · cases hf : st.aksFlag
      · rw [scanStep_cluster_fire n i raw st r hcl hf]
        simp [hcl, Census.get_set]
      · rw [scanStep_cluster_skip n i raw st r hcl hf]
        simp [hf]
    · have hcl' : isClusterRes r = false := by simpa using hcl
      obtain ⟨_, haks, _⟩ := scanStep_nonCluster n i raw st r hcl'
      rw [haks, scanStep_flag]
      simp [hcl']

lemma scan_vms (n i raw : String) :
    ∀ (rs : List AzResource) (st : ScanState),
      (scanResources n i raw rs st).census.get Category.vms =
        st.census.get Category.vms := by
  intro rs
  induction rs with
  | nil => intro st; simp [scanResources]
  | cons r t ih =>
    intro st
    simp only [scanResources, List.foldl_cons]
    rw [show (t.foldl (scanStep n i raw) (scanStep n i raw st r)) =
      scanResources n i raw t (scanStep n i raw st r) from rfl]
    rw [ih, scanStep_vms]

lemma accumulate_get (g s : Census) (c : Category) :
    (accumulate g s).get c = g.get c + s.get c := by
  cases c <;> rfl

lemma runAll_get_aux :
    ∀ (subs : List SubInput) (g : Census) (e : List String) (c : Category),
      ((subs.foldl runStep (g, e)).1).get c =
        g.get c +
          ((subs.filter fun si => si.state == "Enabled").map
            fun si => ((processSubscription si).1).get c).sum := by
  intro subs
  induction subs with
  | nil => intro g e c; simp
  | cons a t ih =>
    intro g e c
    by_cases h : a.state = "Enabled"
    · have hb : (a.state == "Enabled") = true := by simpa using h
      simp only [List.foldl_cons, List.filter_cons, hb, if_pos, List.map_cons, List.sum_cons]
      rw [show runStep (g, e) a =
        (accumulate g (processSubscription a).1, e ++ (processSubscription a).2) from by
          simp [runStep, h]]
      rw [ih, accumulate_get]
      ring
    · have hb : (a.state == "Enabled") = false := by simpa using h
      simp only [List.foldl_cons, List.filter_cons, hb]
      rw [show runStep (g, e) a = (g, e) from by simp [runStep, h]]
      exact ih g e c

lemma data_append_assoc3 (a b c d : String) :
    (a ++ b ++ c ++ d).data = a.data ++ (b.data ++ (c.data ++ d.data)) := by
  simp [String.data_append, List.append_assoc]

lemma aksErrMsg_mentions (n i raw : String) :
    mentionsSub (aksErrMsg n i raw) n ∧ mentionsSub (aksErrMsg n i raw) i := by
  constructor
  · refine ⟨[], " (".data ++ (i.data ++
      (") - Failed to execute or parse configured AKS node count. Error: Unexpected output from AKS count pipe: ".data
        ++ raw.data)), ?_⟩
    simp [aksErrMsg, String.data_append, List.append_assoc]
  · refine ⟨n.data ++ " (".data,
      ") - Failed to execute or parse configured AKS node count. Error: Unexpected output from AKS count pipe: ".data
        ++ raw.data, ?_⟩
    simp [aksErrMsg, String.data_append, List.append_assoc]

lemma vmErrMsg_mentions (n i raw : String) :
    mentionsSub (vmErrMsg n i raw) n ∧ mentionsSub (vmErrMsg n i raw) i := by
  constructor
  · refine ⟨[], " (".data ++ (i.data ++
      (") - Error executing az vm list. Error: invalid literal for int() with base 10: ".data
        ++ raw.data)), ?_⟩
    simp [vmErrMsg, String.data_append, List.append_assoc]
  · refine ⟨n.data ++ " (".data,
      ") - Error executing az vm list. Error: invalid literal for int() with base 10: ".data
        ++ raw.data, ?_⟩
    simp [vmErrMsg, String.data_append, List.append_assoc]

/-- C1 is refuted on this concrete input: for the single cluster with
node pools `[{maxCount:"err",count:4},{maxCount:-7}]` the claimed rule
(maxCount if present and numeric, else count if present and numeric)
sums to `4 + (-7) = -3`, but the code keeps the present non-numeric
`maxCount` (no fallback to `count`), sums only `-7`, and the negative
numeral then fails the digits-only check, so the resolver returns 0 and
appends one error record instead of returning the claimed sum. -/
theorem c1_counterexample :
    specAksSum [⟨[⟨some (Jv.jstr "err"), some (Jv.jnum 4)⟩,
                  ⟨some (Jv.jnum (-7)), none⟩]⟩] = -3 ∧
    (aksResolve "sub" "id" [⟨[⟨some (Jv.jstr "err"), some (Jv.jnum 4)⟩,
                              ⟨some (Jv.jnum (-7)), none⟩]⟩]).1 = 0 ∧
    (aksResolve "sub" "id" [⟨[⟨some (Jv.jstr "err"), some (Jv.jnum 4)⟩,
                              ⟨some (Jv.jnum (-7)), none⟩]⟩]).2.length = 1 := by
  refine ⟨by decide, by decide, by decide⟩

/-- C1 (amended): for every subscription the resolver aggregates, over
every agentPoolProfile of every cluster, the profile value selected by
`maxCount // count` (maxCount when it is present and neither null nor
false — with no fallback to count when that value is non-numeric — else
count), keeping only numeric values; whenever the resulting sum is
non-negative the resolver returns exactly that sum with no error
record.  In particular the node pools
`[{maxCount:5,count:3},{count:2},{maxCount:null,count:4}]` yield 11. -/
theorem c1_theorem (subscription_name subscription_id : String) (cs : List AksCluster)
    (h : 0 ≤ (jqContribs cs).sum) :
    aksResolve subscription_name subscription_id cs = ((jqContribs cs).sum, []) := by
  cases hns : jqContribs cs with
  | nil =>
    simp only [aksResolve, jqAddOutput, hns]
    rw [get_configured_aks_node_count, if_neg (by decide), if_pos (by decide)]
    simp
  | cons a t =>
    rw [hns] at h
    have hout : jqAddOutput cs = intRender (a :: t).sum := by
      simp only [jqAddOutput, hns]
    have hrender : intRender (a :: t).sum = natRender ((a :: t).sum).toNat := by
      rw [intRender, if_neg (by omega)]
    have hd := natRender_spec ((a :: t).sum).toNat
    rw [aksResolve, hout, hrender, get_configured_aks_node_count, if_pos hd.1, hd.2,
      Int.toNat_of_nonneg h]

/-- Witness for the amended C1 at the node pools of the specification
example: contributions 5, 2, 4 sum to 11 and the resolver returns 11
with no error record. -/
theorem c1_witness :
    0 ≤ (jqContribs [⟨[⟨some (Jv.jnum 5), some (Jv.jnum 3)⟩, ⟨none, some (Jv.jnum 2)⟩,
                       ⟨some Jv.jnull, some (Jv.jnum 4)⟩]⟩]).sum ∧
    (jqContribs [⟨[⟨some (Jv.jnum 5), some (Jv.jnum 3)⟩, ⟨none, some (Jv.jnum 2)⟩,
                   ⟨some Jv.jnull, some (Jv.jnum 4)⟩]⟩]).sum = 11 ∧
    aksResolve "sub" "id" [⟨[⟨some (Jv.jnum 5), some (Jv.jnum 3)⟩, ⟨none, some (Jv.jnum 2)⟩,
                             ⟨some Jv.jnull, some (Jv.jnum 4)⟩]⟩] = (11, []) := by
  refine ⟨by decide, by decide, ?_⟩
  have h := c1_theorem "sub" "id"
    [⟨[⟨some (Jv.jnum 5), some (Jv.jnum 3)⟩, ⟨none, some (Jv.jnum 2)⟩,
       ⟨some Jv.jnull, some (Jv.jnum 4)⟩]⟩] (by decide)
  rw [h]
  decide

/-- C2: within one subscription scan started with a clear
`aks_counted_flag`, the capacity resolver fires exactly once when any
cluster-type descriptor is present (and never otherwise), the final
Container Hosts slot carries the resolver result in that case, and any
cluster-type descriptor processed while the flag is already set leaves
the scan state completely unchanged. -/
theorem c2_theorem (subscription_name subscription_id aksRaw : String)
    (rs : List AzResource) (st0 : ScanState)
    (hflag : st0.aksFlag = false) (hinv : st0.invocations = 0) :
    (scanResources subscription_name subscription_id aksRaw rs st0).invocations =
      (if rs.any isClusterRes = true then 1 else 0) ∧
    (rs.any isClusterRes = true →
      (scanResources subscription_name subscription_id aksRaw rs st0).census.get Category.aks =
        (get_configured_aks_node_count subscription_name subscription_id aksRaw).1) ∧
    (∀ (st : ScanState) (r : AzResource), st.aksFlag = true → isClusterRes r = true →
      scanStep subscription_name subscription_id aksRaw st r = st) := by
  refine ⟨?_, ?_, ?_⟩
  · rw [scan_inv, hinv, hflag]
    simp
  · intro hany
    rw [scan_aks, if_pos ⟨hflag, hany⟩]
  · intro st r hf hcl
    exact scanStep_cluster_skip subscription_name subscription_id aksRaw st r hcl hf

/-- Witness for C2: a subscription whose resource list holds two AKS
cluster descriptors (one in mixed case) and whose pipe prints `7`
performs exactly one resolver invocation and records 7 container
hosts. -/
theorem c2_witness :
    (scanResources "sub" "id" "7"
      [⟨"Microsoft.ContainerService/ManagedClusters", none⟩,
       ⟨"microsoft.containerservice/managedclusters", none⟩,
       ⟨"microsoft.storage/storageaccounts", none⟩]
      ⟨censusZero, false, 0, []⟩).invocations = 1 ∧
    (scanResources "sub" "id" "7"
      [⟨"Microsoft.ContainerService/ManagedClusters", none⟩,
       ⟨"microsoft.containerservice/managedclusters", none⟩,
       ⟨"microsoft.storage/storageaccounts", none⟩]
      ⟨censusZero, false, 0, []⟩).census.get Category.aks = 7 := by
  have h := c2_theorem "sub" "id" "7"
    [⟨"Microsoft.ContainerService/ManagedClusters", none⟩,
     ⟨"microsoft.containerservice/managedclusters", none⟩,
     ⟨"microsoft.storage/storageaccounts", none⟩]
    ⟨censusZero, false, 0, []⟩ rfl rfl
  refine ⟨h.1.trans (by decide), (h.2.1 (by decide)).trans (by decide)⟩

/-- C3: the capacity resolver classifies the raw pipe output as the
claim states: a digit string yields its integer value with no error
record; the empty string and the string null yield 0 with no error
record; any other raw output yields 0 with exactly one error record
that mentions both the subscription name and the subscription id. -/
theorem c3_theorem (subscription_name subscription_id raw : String) :
    (isDigitString raw = true →
      get_configured_aks_node_count subscription_name subscription_id raw =
        ((digitsToNat raw : Int), [])) ∧
    ((raw = "" ∨ raw = "null") →
      get_configured_aks_node_count subscription_name subscription_id raw = (0, [])) ∧
    (isDigitString raw = false → raw ≠ "" → raw ≠ "null" →
      (get_configured_aks_node_count subscription_name subscription_id raw).1 = 0 ∧
      ∃ msg, (get_configured_aks_node_count subscription_name subscription_id raw).2 = [msg] ∧
        mentionsSub msg subscription_name ∧ mentionsSub msg subscription_id) := by
  refine ⟨?_, ?_, ?_⟩
  · intro hdig
    rw [get_configured_aks_node_count, if_pos hdig]
  · rintro (h0 | hnull)
    · subst h0
      rw [get_configured_aks_node_count, if_neg (by decide), if_pos (by decide)]
    · subst hnull
      rw [get_configured_aks_node_count, if_neg (by decide), if_pos (by decide)]
  · intro hdig h0 hnull
    have hcond : ¬ (raw = "null" ∨ raw = "") := by
      rintro (h | h) <;> [exact hnull h; exact h0 h]
    rw [get_configured_aks_node_count, if_neg (by simp [hdig]), if_neg hcond]
    exact ⟨rfl, aksErrMsg subscription_name subscription_id raw, rfl,
      (aksErrMsg_mentions subscription_name subscription_id raw).1,
      (aksErrMsg_mentions subscription_name subscription_id raw).2⟩

/-- Witness for C3: at the concrete unexpected raw output garbage the
resolver yields 0 and exactly one error record, and at the digit string
0042 it yields 42 with none. -/
theorem c3_witness :
    (get_configured_aks_node_count "mysub" "myid" "garbage").1 = 0 ∧
    (∃ msg, (get_configured_aks_node_count "mysub" "myid" "garbage").2 = [msg] ∧
      mentionsSub msg "mysub" ∧ mentionsSub msg "myid") ∧
    get_configured_aks_node_count "mysub" "myid" "0042" = (42, []) := by
  have h := c3_theorem "mysub" "myid" "garbage"
  have h2 := c3_theorem "mysub" "myid" "0042"
  obtain ⟨ha, hb⟩ := h.2.2 (by decide) (by decide) (by decide)
  exact ⟨ha, hb, (h2.1 (by decide)).trans (by decide)⟩

/-- C4: for a descriptor whose lowercased type is microsoft.web/sites,
a present kind whose lowercased value contains the functionapp marker
increments exactly the Serverless Functions slot by one, a present kind
without the marker leaves the scan state unchanged, and an absent kind
leaves the scan state unchanged. -/
theorem c4_theorem (subscription_name subscription_id aksRaw : String)
    (st : ScanState) (r : AzResource)
    (hty : pyLower r.type = "microsoft.web/sites") :
    (∀ k, r.kind = some k → pyIn function_kind (pyLower k) = true →
      scanStep subscription_name subscription_id aksRaw st r =
        { st with census := st.census.set Category.serverless (st.census.get Category.serverless + 1) }) ∧
    (∀ k, r.kind = some k → pyIn function_kind (pyLower k) = false →
      scanStep subscription_name subscription_id aksRaw st r = st) ∧
    (r.kind = none → scanStep subscription_name subscription_id aksRaw st r = st) := by
  have hne : ¬ pyLower r.type = "microsoft.containerservice/managedclusters" := by
    rw [hty]; decide
  refine ⟨?_, ?_, ?_⟩
  · intro k hk hin
    have hk0 : k ≠ "" := by
      intro h0
      subst h0
      rw [show pyLower "" = "" from rfl] at hin
      exact absurd hin (by decide)
    simp only [scanStep, if_neg hne, if_pos hty, hk]
    rw [if_pos ⟨hk0, hin⟩]
  · intro k hk hin
    simp only [scanStep, if_neg hne, if_pos hty, hk]
    rw [if_neg ?_]
    rintro ⟨-, hin'⟩
    rw [hin] at hin'
    cases hin'
  · intro hk
    simp only [scanStep, if_neg hne, if_pos hty, hk]

/-- Witness for C4: concrete microsoft.web/sites descriptors with kind
functionapp,linux (counted), kind app (dropped) and no kind (dropped),
from the initial scan state. -/
theorem c4_witness :
    (scanStep "sub" "id" "" ⟨censusZero, false, 0, []⟩
      ⟨"microsoft.web/sites", some "functionapp,linux"⟩).census.get Category.serverless = 1 ∧
    scanStep "sub" "id" "" ⟨censusZero, false, 0, []⟩
      ⟨"microsoft.web/sites", some "app"⟩ = ⟨censusZero, false, 0, []⟩ ∧
    scanStep "sub" "id" "" ⟨censusZero, false, 0, []⟩
      ⟨"microsoft.web/sites", none⟩ = ⟨censusZero, false, 0, []⟩ := by
  have h := c4_theorem "sub" "id" "" ⟨censusZero, false, 0, []⟩
    ⟨"microsoft.web/sites", some "functionapp,linux"⟩ (by decide)
  have h2 := c4_theorem "sub" "id" "" ⟨censusZero, false, 0, []⟩
    ⟨"microsoft.web/sites", some "app"⟩ (by decide)
  have h3 := c4_theorem "sub" "id" "" ⟨censusZero, false, 0, []⟩
    ⟨"microsoft.web/sites", none⟩ (by decide)
  refine ⟨?_, h2.2.1 "app" rfl (by decide), h3.2.2 rfl⟩
  rw [h.1 "functionapp,linux" rfl (by decide)]
  decide

/-- C6 is refuted on this concrete input: the type microsoft.web/sites
is not a key of RESOURCE_TO_CATEGORY, yet a descriptor of that type
whose kind contains functionapp changes a category count (Serverless
Functions goes from 0 to 1), so an unmapped type does not always leave
every category count unchanged. -/
theorem c6_counterexample :
    categoryOfType "microsoft.web/sites" = none ∧
    (scanStep "sub" "id" "" ⟨censusZero, false, 0, []⟩
      ⟨"microsoft.web/sites", some "functionapp"⟩).census.get Category.serverless = 1 ∧
    censusZero.get Category.serverless = 0 := by
  refine ⟨by decide, by decide, by decide⟩

/-- C6 (amended): taxonomy lookup is case-insensitive (two type strings
with the same lowercasing map identically, and the two example spellings
of the storage-account type map to the same category), lookup is exact
equality of the lowercased string against a table key (it succeeds
precisely on table membership, so no partial or prefix matching), and a
descriptor whose lowercased type is not in the table — other than the
serverless special-case type microsoft.web/sites — leaves the scan state
(every category count and the error list) unchanged. -/
theorem c6_theorem :
    (∀ s t : String, pyLower s = pyLower t → categoryOfType s = categoryOfType t) ∧
    (categoryOfType "Microsoft.Storage/storageAccounts" =
      categoryOfType "microsoft.storage/storageaccounts") ∧
    (∀ (s : String) (c : Category),
      categoryOfType s = some c ↔ (pyLower s, c) ∈ RESOURCE_TO_CATEGORY) ∧
    (∀ (subscription_name subscription_id aksRaw : String) (st : ScanState) (r : AzResource),
      List.lookup (pyLower r.type) RESOURCE_TO_CATEGORY = none →
      pyLower r.type ≠ "microsoft.web/sites" →
      scanStep subscription_name subscription_id aksRaw st r = st) := by
  refine ⟨?_, by decide, ?_, ?_⟩
  · intro s t h
    rw [categoryOfType, categoryOfType, h]
  · intro s c
    constructor
    · exact fun h => lookup_mem h
    · exact fun h => lookup_of_mem_nodup table_keys_nodup h
  · intro n i raw st r hl hs
    have hne : ¬ pyLower r.type = "microsoft.containerservice/managedclusters" := by
      intro h
      rw [h] at hl
      exact absurd hl (by decide)
    by_cases hv : pyLower r.type = "microsoft.compute/virtualmachines" ∨
        pyLower r.type = "microsoft.synapse/workspaces"
    · simp only [scanStep, if_neg hne, if_neg hs, if_pos hv]
    · simp only [scanStep, if_neg hne, if_neg hs, if_neg hv, hl]

/-- Witness for C6: the two storage spellings map to the same category,
membership characterizes a successful lookup on a concrete key, and a
descriptor with the unmapped type foo/bar leaves the initial scan state
unchanged. -/
theorem c6_witness :
    categoryOfType "Microsoft.Storage/storageAccounts" = some Category.buckets ∧
    ((pyLower "Microsoft.Storage/storageAccounts", Category.buckets) ∈ RESOURCE_TO_CATEGORY) ∧
    scanStep "sub" "id" "" ⟨censusZero, false, 0, []⟩ ⟨"foo/bar", none⟩ =
      ⟨censusZero, false, 0, []⟩ := by
  refine ⟨?_, ?_, ?_⟩
  · exact (c6_theorem.2.2.1 "Microsoft.Storage/storageAccounts" Category.buckets).mpr (by decide)
  · exact (c6_theorem.2.2.1 "Microsoft.Storage/storageAccounts" Category.buckets).mp (by decide)
  · exact c6_theorem.2.2.2 "sub" "id" "" ⟨censusZero, false, 0, []⟩ ⟨"foo/bar", none⟩
      (by decide) (by decide)

/-- C7: a descriptor whose lowercased type is the VM type or the
excluded Synapse workspace type leaves the scan state, and hence every
category count, unchanged. -/
theorem c7_theorem (subscription_name subscription_id aksRaw : String)
    (st : ScanState) (r : AzResource)
    (h : pyLower r.type = "microsoft.compute/virtualmachines" ∨
         pyLower r.type = "microsoft.synapse/workspaces") :
    scanStep subscription_name subscription_id aksRaw st r = st := by
  have hne : ¬ pyLower r.type = "microsoft.containerservice/managedclusters" := by
    rcases h with h | h <;> rw [h] <;> decide
  have hs : ¬ pyLower r.type = "microsoft.web/sites" := by
    rcases h with h | h <;> rw [h] <;> decide
  simp only [scanStep, if_neg hne, if_neg hs, if_pos h]

/-- Witness for C7: concrete VM and Synapse workspace descriptors (one
in mixed case) leave the initial scan state unchanged. -/
theorem c7_witness :
    scanStep "sub" "id" "" ⟨censusZero, false, 0, []⟩
      ⟨"Microsoft.Compute/virtualMachines", none⟩ = ⟨censusZero, false, 0, []⟩ ∧
    scanStep "sub" "id" "" ⟨censusZero, false, 0, []⟩
      ⟨"microsoft.synapse/workspaces", none⟩ = ⟨censusZero, false, 0, []⟩ := by
  have h1 := c7_theorem "sub" "id" "" ⟨censusZero, false, 0, []⟩
      ⟨"Microsoft.Compute/virtualMachines", none⟩ (Or.inl (by decide))
  have h2 := c7_theorem "sub" "id" "" ⟨censusZero, false, 0, []⟩
      ⟨"microsoft.synapse/workspaces", none⟩ (Or.inr (by decide))
  exact ⟨h1, h2⟩

/-- C9: a microsoft.web/sites descriptor whose kind is present but the
empty string is treated exactly like a descriptor with no kind: the scan
state is unchanged and the two descriptors produce the same result,
because the detection tests the kind for truthiness before the substring
match. -/
theorem c9_theorem (subscription_name subscription_id aksRaw : String)
    (st : ScanState) (t : String) (hty : pyLower t = "microsoft.web/sites") :
    scanStep subscription_name subscription_id aksRaw st ⟨t, some ""⟩ = st ∧
    scanStep subscription_name subscription_id aksRaw st ⟨t, some ""⟩ =
      scanStep subscription_name subscription_id aksRaw st ⟨t, none⟩ := by
  have hne : ¬ pyLower t = "microsoft.containerservice/managedclusters" := by
    rw [hty]; decide
  have hempty : ¬ (("" : String) ≠ "" ∧ pyIn function_kind (pyLower "") = true) := by
    rintro ⟨h, -⟩
    exact h rfl
  constructor
  · simp only [scanStep, if_neg hne, if_pos hty]
    rw [if_neg hempty]
  · simp only [scanStep, if_neg hne, if_pos hty]
    rw [if_neg hempty]

/-- Witness for C9: the concrete empty-kind sites descriptor leaves the
initial scan state unchanged and agrees with the absent-kind
descriptor. -/
theorem c9_witness :
    scanStep "sub" "id" "" ⟨censusZero, false, 0, []⟩ ⟨"microsoft.web/sites", some ""⟩ =
      ⟨censusZero, false, 0, []⟩ ∧
    scanStep "sub" "id" "" ⟨censusZero, false, 0, []⟩ ⟨"microsoft.web/sites", some ""⟩ =
      scanStep "sub" "id" "" ⟨censusZero, false, 0, []⟩ ⟨"microsoft.web/sites", none⟩ := by
  exact c9_theorem "sub" "id" "" ⟨censusZero, false, 0, []⟩ "microsoft.web/sites" (by decide)

/-- C5: for every category the global total is the sum of the
per-subscription counts over the enabled subscriptions, with no
cross-category leakage (the identity holds per category), and the
category sequence of the per-subscription report equals the canonical
requested_order, which is also the sequence of the grand-total report
and the iteration order of the accumulation fold. -/
theorem c5_theorem (subs : List SubInput) (c : Category) (s g : Census) :
    ((runAll subs).1).get c =
      ((subs.filter fun si => si.state == "Enabled").map
        fun si => ((processSubscription si).1).get c).sum ∧
    (subReport s).map Prod.fst = requested_order ∧
    (grandReport g).map Prod.fst = requested_order := by
  refine ⟨?_, by rw [subReport]; rfl, by rw [grandReport]; rfl⟩
  rw [runAll, runAll_get_aux, censusZero_get, zero_add]

/-- C8: when the VM listing step of a subscription fails to parse, an
error record mentioning the subscription is appended, the Virtual
Machines count stays 0, the generic resource scan still runs (the
result is exactly the scan of the resource list from the zero census),
and, in any position of the account list, the failing subscription does
not prevent earlier or later enabled subscriptions from contributing to
the global totals. -/
theorem c8_theorem (si : SubInput) (hvm : pyInt si.vmRaw = none)
    (hen : si.state = "Enabled") :
    ((processSubscription si).1).get Category.vms = 0 ∧
    (∃ msg, msg ∈ (processSubscription si).2 ∧
      mentionsSub msg si.name ∧ mentionsSub msg si.id) ∧
    (∀ rs, si.resources = some rs →
      processSubscription si =
        ((scanResources si.name si.id si.aksRaw rs ⟨censusZero, false, 0, []⟩).census,
         vmErrMsg si.name si.id si.vmRaw ::
           (scanResources si.name si.id si.aksRaw rs ⟨censusZero, false, 0, []⟩).errors)) ∧
    (∀ (pre post : List SubInput) (c : Category),
      ((runAll (pre ++ si :: post)).1).get c =
        ((runAll pre).1).get c + ((processSubscription si).1).get c +
          ((post.filter fun s2 => s2.state == "Enabled").map
            fun s2 => ((processSubscription s2).1).get c).sum) := by
  have hproc : ∀ rs, si.resources = some rs →
      processSubscription si =
        ((scanResources si.name si.id si.aksRaw rs ⟨censusZero, false, 0, []⟩).census,
         vmErrMsg si.name si.id si.vmRaw ::
           (scanResources si.name si.id si.aksRaw rs ⟨censusZero, false, 0, []⟩).errors) := by
    intro rs hrs
    simp only [processSubscription, hvm, hrs, List.singleton_append]
  refine ⟨?_, ?_, hproc, ?_⟩
  · cases hres : si.resources with
    | some rs =>
      rw [hproc rs hres]
      exact (scan_vms si.name si.id si.aksRaw rs ⟨censusZero, false, 0, []⟩).trans
        (censusZero_get Category.vms)
    | none =>
      simp only [processSubscription, hvm, hres]
      exact censusZero_get Category.vms
  · refine ⟨vmErrMsg si.name si.id si.vmRaw, ?_,
      (vmErrMsg_mentions si.name si.id si.vmRaw).1,
      (vmErrMsg_mentions si.name si.id si.vmRaw).2⟩
    cases hres : si.resources with
    | some rs =>
      rw [hproc rs hres]
      exact List.mem_cons_self ..
    | none =>
      simp only [processSubscription, hvm, hres]
      exact List.mem_cons_self ..
  · intro pre post c
    simp only [runAll, List.foldl_append, List.foldl_cons]
    have hstep : runStep (pre.foldl runStep (censusZero, ([] : List String))) si =
        (accumulate (pre.foldl runStep (censusZero, ([] : List String))).1
           (processSubscription si).1,
         (pre.foldl runStep (censusZero, ([] : List String))).2 ++
           (processSubscription si).2) := by
      simp [runStep, hen]
    rw [hstep, runAll_get_aux, accumulate_get]

/-- Witness for C8: a subscription whose VM pipe printed oops keeps a VM
count of 0 while its storage account is still scanned, and a following
healthy subscription still contributes: the global bucket count over the
two subscriptions is 3. -/
theorem c8_witness :
    ((processSubscription ⟨"s1", "i1", "Enabled", "oops",
        some [⟨"microsoft.storage/storageaccounts", none⟩], ""⟩).1).get Category.vms = 0 ∧
    ((processSubscription ⟨"s1", "i1", "Enabled", "oops",
        some [⟨"microsoft.storage/storageaccounts", none⟩], ""⟩).1).get Category.buckets = 1 ∧
    ((runAll [⟨"s1", "i1", "Enabled", "oops",
        some [⟨"microsoft.storage/storageaccounts", none⟩], ""⟩,
      ⟨"s2", "i2", "Enabled", "3",
        some [⟨"microsoft.storage/storageaccounts", none⟩,
              ⟨"Microsoft.Storage/StorageAccounts", none⟩], ""⟩]).1).get Category.buckets = 3 := by
  have h := c8_theorem ⟨"s1", "i1", "Enabled", "oops",
      some [⟨"microsoft.storage/storageaccounts", none⟩], ""⟩ (by decide) rfl
  refine ⟨h.1, by decide, ?_⟩
  have h4 := h.2.2.2 []
    [⟨"s2", "i2", "Enabled", "3",
      some [⟨"microsoft.storage/storageaccounts", none⟩,
            ⟨"Microsoft.Storage/StorageAccounts", none⟩], ""⟩] Category.buckets
  exact h4.trans (by decide)

/-- C10: the capacity resolver is a total function of its raw input that
never raises: its numeric result is always non-negative, it appends at
most one error record, and whenever the raw output fails the digits-only
check (for example a negative or fractional numeral) the result is 0. -/
theorem c10_theorem (subscription_name subscription_id raw : String) :
    0 ≤ (get_configured_aks_node_count subscription_name subscription_id raw).1 ∧
    (get_configured_aks_node_count subscription_name subscription_id raw).2.length ≤ 1 ∧
    (isDigitString raw = false →
      (get_configured_aks_node_count subscription_name subscription_id raw).1 = 0) := by
  rw [get_configured_aks_node_count]
  by_cases hd : isDigitString raw = true
  · rw [if_pos hd]
    refine ⟨Int.natCast_nonneg _, by simp, ?_⟩
    intro hf
    rw [hd] at hf
    cases hf
  · rw [if_neg hd]
    by_cases hn : raw = "null" ∨ raw = ""
    · rw [if_pos hn]
      exact ⟨le_refl 0, by simp, fun _ => rfl⟩
    · rw [if_neg hn]
      exact ⟨le_refl 0, by simp, fun _ => rfl⟩

/-- Witness for C10 at the negative numeral -3 (which Python isdigit
rejects): the result is non-negative, indeed 0, with exactly one error
record appended. -/
theorem c10_witness :
    0 ≤ (get_configured_aks_node_count "mysub" "myid" "-3").1 ∧
    (get_configured_aks_node_count "mysub" "myid" "-3").2.length ≤ 1 ∧
    (get_configured_aks_node_count "mysub" "myid" "-3").1 = 0 ∧
    (get_configured_aks_node_count "mysub" "myid" "-3").2.length = 1 := by
  have h := c10_theorem "mysub" "myid" "-3"
  exact ⟨h.1, h.2.1, h.2.2 (by decide), by decide⟩
